import Mathlib

/-!
Verification of the feature-shift detection pipeline and of its driver script
`scripts/unknown-multiple-sensors.py`.

The driver script is the provided source; the `fsd` package it imports
(`FeatureShiftDetector`, the divergence statistics, the bootstrap calibrator and
the shift localizer) is not among the provided sources, so those components are
modelled from the specification, faithfully to its words.  Samples are lists of
observations, an observation is a list of rational feature values; randomness is
an explicitly threaded generator state, as the specification requires.
-/

/-- An observation: one real-valued vector (modelled over ℚ). -/
abbrev Obs := List ℚ

/-- A sample: an ordered collection of observations of fixed dimension D. -/
abbrev Sample := List Obs

/-- Boolean check that every observation of a sample has dimension `D`. -/
def dimsOk (s : Sample) (D : ℕ) : Bool :=
  s.all (fun row => row.length == D)

/-- Modelled from the spec: marginal restriction of one observation to the
feature columns listed in `fs` (the `fsd.divergence` module is not among the
provided sources). -/
def restrictObs (row : Obs) (fs : List ℕ) : Obs :=
  fs.map (fun j => row.getD j 0)

/-- Modelled from the spec: marginal restriction of a whole sample to the
feature columns listed in `fs`. -/
def restrict (s : Sample) (fs : List ℕ) : Sample :=
  s.map (fun row => restrictObs row fs)

/-- Modelled from the spec: `DivergenceStatistic.compute(P, Q, feature_subset)`.
The fitted-model core of the statistic (ModelKS / FisherDivergence, absent from
the provided sources) is abstracted as a scalar function `stat` of the two
samples; if `feature_subset` is given the statistic is computed on the samples
restricted to those columns, otherwise on all columns. -/
def compute (stat : Sample → Sample → ℚ) (P Q : Sample)
    (feature_subset : Option (List ℕ)) : ℚ :=
  match feature_subset with
  | none => stat P Q
  | some fs => stat (restrict P fs) (restrict Q fs)

/-- Ranking order used by the localizer: higher score first, ties broken in
favour of the lower feature index (the spec's stable tie-break). -/
def rankBetter (a b : ℕ × ℚ) : Prop :=
  b.2 < a.2 ∨ (a.2 = b.2 ∧ a.1 ≤ b.1)

instance : DecidableRel rankBetter := fun _ _ => by
  unfold rankBetter; infer_instance

/-- Modelled from the spec: the per-feature score vector of the ShiftLocalizer,
the statistic restricted to each single feature `\x7bj\x7d` for `j < D`. -/
def featureScores (stat : Sample → Sample → ℚ) (P Q : Sample) (D : ℕ) : List ℚ :=
  (List.range D).map (fun j => compute stat P Q (some [j]))

/-- Modelled from the spec: the ShiftLocalizer attribution, the top-`K`
features by marginal score with the deterministic tie-break. -/
def localize (stat : Sample → Sample → ℚ) (P Q : Sample) (D K : ℕ) : List ℕ :=
  ((List.insertionSort rankBetter
      ((List.range D).zip (featureScores stat P Q D))).take K).map Prod.fst

/-- Error taxonomy of the detector (spec section 7). -/
inductive FsdError
  | notFitted
  | dimensionMismatch
  | calibrationError
deriving DecidableEq

/-- Calibrated state stored by `fit`: the threshold and the feature dimension
fixed at fit time. -/
structure FitState where
  threshold : ℚ
  dim : ℕ
deriving DecidableEq

/-- Modelled from the spec: the FeatureShiftDetector orchestrator, constructed
with a statistic strategy, calibration method, bootstrap count, significance
level and compromise budget (`fsd/__init__.py` is not among the provided
sources).  `fitted = none` is the Unfit state. -/
structure FeatureShiftDetector where
  stat : Sample → Sample → ℚ
  bootstrap_method : String
  n_bootstrap_samples : ℕ
  significance_level : ℚ
  n_compromised : ℕ
  fitted : Option FitState

/-- Explicitly injected random source: a seeded generator state. -/
structure Rng where
  state : ℕ
deriving DecidableEq

/-- Modelled from the spec: one step of the injected pseudo-random source (a
linear congruential step; the spec requires only an explicit seedable source). -/
def Rng.next (r : Rng) : ℕ × Rng :=
  ((r.state * 1103515245 + 12345) % 2147483648,
   ⟨(r.state * 1103515245 + 12345) % 2147483648⟩)

/-- Draw a number strictly below `n` (for nonempty ranges) from the source. -/
def Rng.randBelow (r : Rng) (n : ℕ) : ℕ × Rng :=
  (r.next.1 % n, r.next.2)

/-- Modelled from the spec: a random reshuffle of the pooled observations,
removing a randomly chosen element at each of `fuel` steps. -/
def shuffleObs : ℕ → Rng → List Obs → List Obs × Rng
  | 0, r, l => (l, r)
  | fuel+1, r, l =>
    if l.isEmpty then (l, r)
    else
      let kr := r.randBelow l.length
      let res := shuffleObs fuel kr.2 (l.eraseIdx kr.1)
      (l.getD kr.1 [] :: res.1, res.2)

/-- Modelled from the spec: the `simple` bootstrap method, randomly
repartitioning the pooled reference observations into two groups of the
original sizes. -/
def repartition (r : Rng) (P0 Q0 : Sample) : (Sample × Sample) × Rng :=
  let sh := shuffleObs (P0 ++ Q0).length r (P0 ++ Q0)
  ((sh.1.take P0.length, sh.1.drop P0.length), sh.2)

/-- Modelled from the spec: the BootstrapCalibrator loop, collecting one
statistic value per resampled pair into the empirical null distribution. -/
def bootstrapStats (stat : Sample → Sample → ℚ) (P0 Q0 : Sample) :
    ℕ → Rng → List ℚ × Rng
  | 0, r => ([], r)
  | n+1, r =>
    let pr := repartition r P0 Q0
    let rest := bootstrapStats stat P0 Q0 n pr.2
    (stat pr.1.1 pr.1.2 :: rest.1, rest.2)

/-- Computable ceiling of a nonnegative rational, as a natural number. -/
def ratCeilNat (x : ℚ) : ℕ :=
  (x.num.toNat + x.den - 1) / x.den

/-- Modelled from the spec: the `q` empirical quantile of a collection of
scalars: sort ascending and take the `⌈q·n⌉`-th smallest value. -/
def empiricalQuantile (q : ℚ) (l : List ℚ) : ℚ :=
  (List.insertionSort (fun a b => a ≤ b) l).getD (ratCeilNat (q * l.length) - 1) 0

/-- Dimension of a sample: the length of its first observation. -/
def obsDim (s : Sample) : ℕ :=
  (s.headD []).length

/-- Modelled from the spec: `fit(P0, Q0)` runs the BootstrapCalibrator and
stores the `(1 - significance_level)` empirical quantile of the collected null
statistics as the threshold, together with the dimension fixed at fit time. -/
def FeatureShiftDetector.fit (d : FeatureShiftDetector) (P0 Q0 : Sample)
    (r : Rng) : FeatureShiftDetector × Rng :=
  let br := bootstrapStats d.stat P0 Q0 d.n_bootstrap_samples r
  ({ d with
      fitted := some ⟨empiricalQuantile (1 - d.significance_level) br.1, obsDim P0⟩ },
   br.2)

/-- Modelled from the spec: `detect_and_localize(P, Q, random_state,
return_scores)`.  Requires the Fit state (`NotFittedError` otherwise), checks
the fixed dimension (`DimensionMismatch` otherwise), compares the global
statistic strictly against the threshold, invokes the localizer only on a
detection, and returns the per-feature scores only when `return_scores` is
true. -/
def FeatureShiftDetector.detect_and_localize (d : FeatureShiftDetector)
    (P Q : Sample) (random_state : Rng) (return_scores : Bool) :
    Except FsdError (Bool × List ℕ × Option (List ℚ)) :=
  match d.fitted with
  | none => Except.error FsdError.notFitted
  | some fs =>
    if dimsOk P fs.dim && dimsOk Q fs.dim then
      Except.ok
        (decide (fs.threshold < compute d.stat P Q none),
         (if fs.threshold < compute d.stat P Q none then
            localize d.stat P Q fs.dim d.n_compromised
          else []),
         (if return_scores then some (featureScores d.stat P Q fs.dim) else none))
    else Except.error FsdError.dimensionMismatch

/-- One full run of the driver's per-seed pipeline skeleton: construct the
generator from the seed (line 43 of the script), `fit` on the reference pair,
then `detect_and_localize` on the test pair, returning the threshold and the
full detection result. -/
def runPipeline (d0 : FeatureShiftDetector) (seed : ℕ) (P0 Q0 P Q : Sample) :
    Option ℚ × Except FsdError (Bool × List ℕ × Option (List ℚ)) :=
  let fr := d0.fit P0 Q0 ⟨seed⟩
  (Option.map FitState.threshold fr.1.fitted,
   fr.1.detect_and_localize P Q fr.2 true)

/-! Driver script model (`scripts/unknown-multiple-sensors.py`). -/

/-- Driver constant: number of points in each of P and Q (line 17). -/
def n_samples : ℕ := 1000

/-- Driver constant: number of bootstrap resamples (line 18). -/
def n_bootstrap_runs : ℕ := 250

/-- Driver constant: number of attacked test pairs; the loop runs
`2 * n_attacks` tests of which the first `n_attacks` are attacked (line 21). -/
def n_attacks : ℕ := 100

/-- Driver constant: the significance level `alpha = 0.05` (line 22). -/
def alpha : ℚ := 5 / 100

/-- Driver constant: side of the sensor grid (line 25). -/
def sqrtn : ℕ := 5

/-- Driver constant: feature dimension `n_dim = sqrtn * sqrtn` (line 26). -/
def n_dim : ℕ := sqrtn * sqrtn

/-- Driver sweep list of experiments (line 30). -/
def experiment_list : List String := ["MB-SM", "MB-KS"]

/-- Driver sweep list of graph types (line 29). -/
def graph_type_list : List String := ["complete", "grid", "cycle", "random"]

/-- Driver sweep list of mutual-information targets (line 28), embedded as the
strings Python interpolates for the float values `0.2, 0.1, 0.05, 0.01`. -/
def mi_repr_list : List String := ["0.2", "0.1", "0.05", "0.01"]

/-- Driver sweep list of attacked-sensor counts (line 31). -/
def n_attacked_sensors_list : List ℕ := [2, 3, 4, 5]

/-- The driver's experiment key (line 122):
`f'\x7bexperiment\x7d_\x7bgraph_type\x7d_\x7bmi\x7d_with_\x7bn_compromised\x7d_attacked'`. -/
def experiment_name (experiment graph_type mi : String) (n_compromised : ℕ) : String :=
  experiment ++ "_" ++ graph_type ++ "_" ++ mi ++ "_with_" ++
    toString n_compromised ++ "_attacked"

/-- All experiment keys produced by the driver's sweep, in loop order
(`n_compromised` outermost, then experiment, graph type, mutual information). -/
def allExperimentNames : List String :=
  n_attacked_sensors_list.flatMap (fun k =>
    experiment_list.flatMap (fun e =>
      graph_type_list.flatMap (fun g =>
        mi_repr_list.map (fun mi => experiment_name e g mi k))))

/-- The five fields of each serialized `experiment_results` entry
(lines 115-121). -/
def experiment_results_keys : List String :=
  ["detection_results", "detection_metrics", "localization_results",
   "localization_metrics", "time"]

/-- Python dict assignment `d[k] = v`: replace in place when the key is
present, append otherwise. -/
def pythonDictInsert (dict : List (String × α)) (k : String) (v : α) :
    List (String × α) :=
  if dict.any (fun kv => kv.1 == k) then
    dict.map (fun kv => if kv.1 == k then (k, v) else kv)
  else dict ++ [(k, v)]

/-- The accumulated `experiment_results_dict` after the whole sweep, one dict
assignment per configuration in loop order (lines 33 and 123). -/
def finalResultsDict (payload : String → α) : List (String × α) :=
  allExperimentNames.foldl (fun dict k => pythonDictInsert dict k (payload k)) []

/-- NumPy dtypes relevant to the driver's index arrays. -/
inductive NpDtype
  | float64
  | int64
deriving DecidableEq

/-- A one-dimensional NumPy array used as a fancy index: its dtype tag and its
(nonnegative integral) values. -/
structure NpIndexArray where
  dtype : NpDtype
  vals : List ℕ
deriving DecidableEq

/-- A row of the driver's `random_feature_idxs` array (lines 59-61): the array
is created by `np.zeros`, whose default dtype is float64, and writing the
integer results of `rng.choice` into its rows leaves the array dtype float64. -/
def random_feature_idxs_row (idxs : List ℕ) : NpIndexArray :=
  ⟨NpDtype.float64, idxs⟩

/-- NumPy advanced-index assignment `col[idx] = v` along one axis: an index
array of non-integer dtype raises `IndexError` (NumPy rejects float index
arrays since release 1.12), modelled as `none`; an integer index array sets
each listed position to `v`. -/
def fancyIndexSet (col : List ℚ) (idx : NpIndexArray) (v : ℚ) :
    Option (List ℚ) :=
  match idx.dtype with
  | NpDtype.float64 => none
  | NpDtype.int64 => some (idx.vals.foldl (fun c j => c.set j v) col)

/-- The driver's ground-truth marking at line 63,
`localization_results[features, test_idx, 0] = 1`, acting on the length
`n_dim` column of zeros for one test index. -/
def markGroundTruth (idxs : List ℕ) : Option (List ℚ) :=
  fancyIndexSet (List.replicate n_dim 0) (random_feature_idxs_row idxs) 1

/-! Concrete fixtures used to witness the theorems below. -/

/-- A concrete statistic for witnesses: the first feature value of the first
observation of the second sample. -/
def wStat : Sample → Sample → ℚ := fun _ q => (q.headD []).getD 0 0

/-- A concrete two-feature P sample. -/
def wP : Sample := [[5, 1]]

/-- A concrete two-feature Q sample. -/
def wQ : Sample := [[7, 2]]

/-- A concrete fitted state: threshold 3, dimension 2. -/
def wFit : FitState := ⟨3, 2⟩

/-- A concrete fitted detector with compromise budget 1. -/
def wDetector : FeatureShiftDetector :=
  ⟨wStat, "simple", 250, 5 / 100, 1, some wFit⟩

/-- A concrete detector on which `fit` has not been called. -/
def wUnfit : FeatureShiftDetector :=
  ⟨wStat, "simple", 250, 5 / 100, 1, none⟩

/-- A concrete generator state. -/
def wRng : Rng := ⟨0⟩

/-- The result `detect_and_localize` returns on the concrete fixtures. -/
def wOut : Bool × List ℕ × Option (List ℚ) := (true, [0], some [7, 2])

/-! Supporting lemmas. -/

/-- Restricting one observation to the full index range recovers it. -/
theorem restrictObs_range (row : Obs) :
    restrictObs row (List.range row.length) = row := by
  induction row with
  | nil => rfl
  | cons a t ih =>
    show (List.range (t.length + 1)).map (fun j => (a :: t).getD j 0) = a :: t
    rw [List.range_succ_eq_map, List.map_cons, List.map_map]
    refine congrArg (List.cons ((a :: t).getD 0 0)) ?_
    calc (List.range t.length).map ((fun j => (a :: t).getD j 0) ∘ Nat.succ)
        = (List.range t.length).map (fun j => t.getD j 0) := by
          refine List.map_congr_left ?_
          intro j _
          exact List.getD_cons_succ
      _ = t := ih

/-- `dimsOk` unfolded to a universally quantified statement. -/
theorem dimsOk_iff (s : Sample) (D : ℕ) :
    dimsOk s D = true ↔ ∀ row ∈ s, row.length = D := by
  simp [dimsOk, List.all_eq_true]

/-- Restricting a sample of dimension `D` to the full index range recovers it. -/
theorem restrict_full (s : Sample) (D : ℕ) (h : ∀ row ∈ s, row.length = D) :
    restrict s (List.range D) = s := by
  induction s with
  | nil => rfl
  | cons row t ih =>
    have h1 : row.length = D := h row (List.mem_cons_self row t)
    have h2 : ∀ r ∈ t, r.length = D := fun r hr => h r (List.mem_cons_of_mem row hr)
    show restrictObs row (List.range D) :: restrict t (List.range D) = row :: t
    rw [ih h2]
    refine congrArg (fun x => x :: t) ?_
    rw [← h1]
    exact restrictObs_range row

/-- The localizer returns at most `K` features. -/
theorem localize_length_le (stat : Sample → Sample → ℚ) (P Q : Sample) (D K : ℕ) :
    (localize stat P Q D K).length ≤ K := by
  unfold localize
  rw [List.length_map, List.length_take]
  exact Nat.min_le_left _ _

/-- The per-feature score vector has length `D`. -/
theorem featureScores_length (stat : Sample → Sample → ℚ) (P Q : Sample) (D : ℕ) :
    (featureScores stat P Q D).length = D := by
  unfold featureScores
  rw [List.length_map, List.length_range]

/-- Putting a list's `k`-th element in front of the list with that element
erased is a permutation of the list. -/
theorem getD_cons_eraseIdx_perm (l : List Obs) (k : ℕ) (h : k < l.length) :
    List.Perm (l.getD k [] :: l.eraseIdx k) l := by
  rw [List.getD_eq_getElem l [] h, List.eraseIdx_eq_take_drop_succ]
  have h2 : l.drop k = l[k] :: l.drop (k + 1) := List.drop_eq_getElem_cons h
  conv_rhs => rw [← List.take_append_drop k l, h2]
  exact List.perm_middle.symm

/-- The reshuffle returns a permutation of its input. -/
theorem shuffleObs_perm (fuel : ℕ) : ∀ (r : Rng) (l : List Obs),
    List.Perm (shuffleObs fuel r l).1 l := by
  induction fuel with
  | zero => intro r l; exact List.Perm.refl l
  | succ n ih =>
    intro r l
    by_cases hl : l.isEmpty
    · unfold shuffleObs
      rw [if_pos hl]
    · have hlen : 0 < l.length := by
        cases l with
        | nil => simp at hl
        | cons a t => simp
      have hk : (r.randBelow l.length).1 < l.length := Nat.mod_lt _ hlen
      have step : (shuffleObs (n + 1) r l).1 =
          l.getD (r.randBelow l.length).1 [] ::
            (shuffleObs n (r.randBelow l.length).2
              (l.eraseIdx (r.randBelow l.length).1)).1 := by
        conv_lhs => unfold shuffleObs
        rw [if_neg hl]
      rw [step]
      exact (List.Perm.cons _ (ih _ _)).trans (getD_cons_eraseIdx_perm l _ hk)

/-- The `simple` repartition produces the `take`/`drop` split of a permutation
of the pooled reference observations. -/
theorem repartition_spec (r : Rng) (P0 Q0 : Sample) :
    ∃ L : Sample, List.Perm L (P0 ++ Q0) ∧
      (repartition r P0 Q0).1.1 = L.take P0.length ∧
      (repartition r P0 Q0).1.2 = L.drop P0.length :=
  ⟨(shuffleObs (P0 ++ Q0).length r (P0 ++ Q0)).1,
   shuffleObs_perm _ _ _, rfl, rfl⟩

/-- The calibrator collects exactly `n` statistic values, each computed on a
repartition of the pooled reference data into groups of the original sizes. -/
theorem bootstrapStats_spec (stat : Sample → Sample → ℚ) (P0 Q0 : Sample)
    (n : ℕ) (r : Rng) :
    (bootstrapStats stat P0 Q0 n r).1.length = n ∧
    ∀ v ∈ (bootstrapStats stat P0 Q0 n r).1, ∃ L : Sample,
      List.Perm L (P0 ++ Q0) ∧
      v = stat (L.take P0.length) (L.drop P0.length) := by
  induction n generalizing r with
  | zero => exact ⟨rfl, fun v hv => absurd hv (List.not_mem_nil v)⟩
  | succ n ih =>
    have step : (bootstrapStats stat P0 Q0 (n + 1) r).1 =
        stat (repartition r P0 Q0).1.1 (repartition r P0 Q0).1.2 ::
          (bootstrapStats stat P0 Q0 n (repartition r P0 Q0).2).1 := rfl
    obtain ⟨ih1, ih2⟩ := ih (repartition r P0 Q0).2
    constructor
    · rw [step, List.length_cons, ih1]
    · intro v hv
      rw [step] at hv
      rcases List.mem_cons.mp hv with h | h
      · obtain ⟨L, hL, ht, hd⟩ := repartition_spec r P0 Q0
        exact ⟨L, hL, by rw [h, ht, hd]⟩
      · exact ih2 v h

/-! Claim theorems. -/

/-- Claim C6: for all valid sample pairs of dimension `D` and any fixed model
state (any core statistic), `compute` with `feature_subset` omitted returns
the same scalar as `compute` with the full feature subset `[0, D)`. -/
theorem compute_none_eq_full_subset (stat : Sample → Sample → ℚ)
    (P Q : Sample) (D : ℕ) (hP : dimsOk P D = true) (hQ : dimsOk Q D = true) :
    compute stat P Q none = compute stat P Q (some (List.range D)) := by
  show stat P Q = stat (restrict P (List.range D)) (restrict Q (List.range D))
  rw [restrict_full P D ((dimsOk_iff P D).mp hP),
      restrict_full Q D ((dimsOk_iff Q D).mp hQ)]

/-- Witness for C6 at the concrete two-feature fixtures. -/
theorem compute_none_eq_full_subset_witness :
    dimsOk wP 2 = true ∧ dimsOk wQ 2 = true ∧
    compute wStat wP wQ none = compute wStat wP wQ (some (List.range 2)) :=
  ⟨by decide, by decide,
   compute_none_eq_full_subset wStat wP wQ 2 (by decide) (by decide)⟩

/-- Claim C7: for every detector configured with compromise budget
`n_compromised` and every successful `detect_and_localize` call, the attributed
feature subset has cardinality at most that budget. -/
theorem attributed_subset_card_le_budget (d : FeatureShiftDetector)
    (P Q : Sample) (r : Rng) (rs : Bool)
    (out : Bool × List ℕ × Option (List ℚ))
    (hok : d.detect_and_localize P Q r rs = Except.ok out) :
    out.2.1.length ≤ d.n_compromised := by
  unfold FeatureShiftDetector.detect_and_localize at hok
  cases hfit : d.fitted with
  | none => rw [hfit] at hok; exact absurd hok (by simp)
  | some fs =>
    rw [hfit] at hok
    dsimp only at hok
    by_cases hdim : (dimsOk P fs.dim && dimsOk Q fs.dim) = true
    · rw [if_pos hdim] at hok
      injection hok with hout
      subst hout
      show (if fs.threshold < compute d.stat P Q none then
              localize d.stat P Q fs.dim d.n_compromised
            else []).length ≤ d.n_compromised
      by_cases hlt : fs.threshold < compute d.stat P Q none
      · rw [if_pos hlt]; exact localize_length_le _ _ _ _ _
      · rw [if_neg hlt]; exact Nat.zero_le _
    · rw [if_neg hdim] at hok
      exact absurd hok (by simp)

/-- Witness for C7 at the concrete fixtures. -/
theorem attributed_subset_card_le_budget_witness :
    wDetector.detect_and_localize wP wQ wRng true = Except.ok wOut ∧
    wOut.2.1.length ≤ wDetector.n_compromised :=
  ⟨rfl,
   attributed_subset_card_le_budget wDetector wP wQ wRng true wOut rfl⟩

/-- Claim C1: for every fitted detector and every valid test pair,
`detect_and_localize` reports a shift exactly when the global statistic is
strictly greater than the calibrated threshold, and the localizer's output is
taken only in that case (the attributed subset is empty otherwise). -/
theorem detect_flag_iff_statistic_gt_threshold (d : FeatureShiftDetector)
    (fs : FitState) (P Q : Sample) (r : Rng) (rs : Bool)
    (out : Bool × List ℕ × Option (List ℚ))
    (hfit : d.fitted = some fs)
    (hok : d.detect_and_localize P Q r rs = Except.ok out) :
    (out.1 = true ↔ fs.threshold < compute d.stat P Q none) ∧
    (out.1 = true → out.2.1 = localize d.stat P Q fs.dim d.n_compromised) ∧
    (out.1 = false → out.2.1 = []) := by
  unfold FeatureShiftDetector.detect_and_localize at hok
  rw [hfit] at hok
  dsimp only at hok
  by_cases hdim : (dimsOk P fs.dim && dimsOk Q fs.dim) = true
  · rw [if_pos hdim] at hok
    injection hok with hout
    subst hout
    refine ⟨decide_eq_true_iff, ?_, ?_⟩
    · intro h1
      have hc : fs.threshold < compute d.stat P Q none := of_decide_eq_true h1
      show (if fs.threshold < compute d.stat P Q none then
              localize d.stat P Q fs.dim d.n_compromised
            else []) = localize d.stat P Q fs.dim d.n_compromised
      rw [if_pos hc]
    · intro h0
      have hc : ¬ fs.threshold < compute d.stat P Q none :=
        of_decide_eq_false h0
      show (if fs.threshold < compute d.stat P Q none then
              localize d.stat P Q fs.dim d.n_compromised
            else []) = []
      rw [if_neg hc]
  · rw [if_neg hdim] at hok
    exact absurd hok (by simp)

/-- Witness for C1 at the concrete fixtures: the statistic 7 exceeds the
threshold 3 and the attributed subset is the localizer's output. -/
theorem detect_flag_iff_statistic_gt_threshold_witness :
    wDetector.fitted = some wFit ∧
    wDetector.detect_and_localize wP wQ wRng true = Except.ok wOut ∧
    ((wOut.1 = true ↔ wFit.threshold < compute wDetector.stat wP wQ none) ∧
     (wOut.1 = true →
        wOut.2.1 = localize wDetector.stat wP wQ wFit.dim wDetector.n_compromised) ∧
     (wOut.1 = false → wOut.2.1 = [])) :=
  ⟨rfl, rfl,
   detect_flag_iff_statistic_gt_threshold wDetector wFit wP wQ wRng true wOut rfl rfl⟩

/-- Claim C2: with `return_scores` true, a successful `detect_and_localize`
returns a score vector of length `D` (the dimension fixed at fit time) whether
or not a shift is detected, and an empty attributed subset whenever
`shift_detected` is false. -/
theorem scores_length_and_subset_empty_on_nondetection
    (d : FeatureShiftDetector) (fs : FitState) (P Q : Sample) (r : Rng)
    (out : Bool × List ℕ × Option (List ℚ))
    (hfit : d.fitted = some fs)
    (hok : d.detect_and_localize P Q r true = Except.ok out) :
    (∃ v, out.2.2 = some v ∧ v.length = fs.dim) ∧
    (out.1 = false → out.2.1 = []) := by
  unfold FeatureShiftDetector.detect_and_localize at hok
  rw [hfit] at hok
  dsimp only at hok
  by_cases hdim : (dimsOk P fs.dim && dimsOk Q fs.dim) = true
  · rw [if_pos hdim] at hok
    injection hok with hout
    subst hout
    constructor
    · exact ⟨featureScores d.stat P Q fs.dim, rfl, featureScores_length _ _ _ _⟩
    · intro h0
      have hc : ¬ fs.threshold < compute d.stat P Q none :=
        of_decide_eq_false h0
      show (if fs.threshold < compute d.stat P Q none then
              localize d.stat P Q fs.dim d.n_compromised
            else []) = []
      rw [if_neg hc]
  · rw [if_neg hdim] at hok
    exact absurd hok (by simp)

/-- Witness for C2 at the concrete fixtures: the returned score vector
`[7, 2]` has the fit-time length 2. -/
theorem scores_length_and_subset_empty_on_nondetection_witness :
    wDetector.fitted = some wFit ∧
    wDetector.detect_and_localize wP wQ wRng true = Except.ok wOut ∧
    ((∃ v, wOut.2.2 = some v ∧ v.length = wFit.dim) ∧
     (wOut.1 = false → wOut.2.1 = [])) :=
  ⟨rfl, rfl,
   scores_length_and_subset_empty_on_nondetection wDetector wFit wP wQ wRng wOut rfl rfl⟩

/-- Claim C3: on a detector whose `fit` has not been called (state Unfit),
every `detect_and_localize` call fails with `NotFittedError`. -/
theorem detect_before_fit_not_fitted_error (d : FeatureShiftDetector)
    (P Q : Sample) (r : Rng) (rs : Bool) (h : d.fitted = none) :
    d.detect_and_localize P Q r rs = Except.error FsdError.notFitted := by
  unfold FeatureShiftDetector.detect_and_localize
  rw [h]

/-- Witness for C3 at the concrete unfitted detector. -/
theorem detect_before_fit_not_fitted_error_witness :
    wUnfit.fitted = none ∧
    wUnfit.detect_and_localize wP wQ wRng true = Except.error FsdError.notFitted :=
  ⟨rfl, detect_before_fit_not_fitted_error wUnfit wP wQ wRng true rfl⟩

/-- Claim C4: `fit` stores as threshold the `(1 - significance_level)`
empirical quantile of the collection of `n_bootstrap_samples` statistic values,
and that collection has exactly `n_bootstrap_samples` entries, each the
statistic of a pair obtained by repartitioning the pooled reference data into
two groups of the original sizes. -/
theorem fit_threshold_is_bootstrap_quantile (d : FeatureShiftDetector)
    (P0 Q0 : Sample) (r : Rng) :
    (d.fit P0 Q0 r).1.fitted =
      some ⟨empiricalQuantile (1 - d.significance_level)
              (bootstrapStats d.stat P0 Q0 d.n_bootstrap_samples r).1,
            obsDim P0⟩ ∧
    (bootstrapStats d.stat P0 Q0 d.n_bootstrap_samples r).1.length =
      d.n_bootstrap_samples ∧
    ∀ v ∈ (bootstrapStats d.stat P0 Q0 d.n_bootstrap_samples r).1,
      ∃ L : Sample, List.Perm L (P0 ++ Q0) ∧
        v = d.stat (L.take P0.length) (L.drop P0.length) :=
  ⟨rfl,
   (bootstrapStats_spec d.stat P0 Q0 d.n_bootstrap_samples r).1,
   (bootstrapStats_spec d.stat P0 Q0 d.n_bootstrap_samples r).2⟩

/-- Claim C5: the pipeline is a deterministic function of its inputs and the
seed of the injected random source: two runs of `fit` followed by
`detect_and_localize` from equal seeds on equal inputs produce the identical
threshold, detection flag, attributed subset and score vector.  The embedding
threads the generator state explicitly, so there is no ambient randomness. -/
theorem pipeline_deterministic_in_seed (d0 : FeatureShiftDetector)
    (s1 s2 : ℕ) (P0 Q0 P Q : Sample) (h : s1 = s2) :
    runPipeline d0 s1 P0 Q0 P Q = runPipeline d0 s2 P0 Q0 P Q := by
  rw [h]

/-- Witness for C5 at the concrete fixtures and seed 0. -/
theorem pipeline_deterministic_in_seed_witness :
    (0 : ℕ) = 0 ∧
    runPipeline wUnfit 0 wP wQ wP wQ = runPipeline wUnfit 0 wP wQ wP wQ :=
  ⟨rfl, pipeline_deterministic_in_seed wUnfit 0 0 wP wQ wP wQ rfl⟩

set_option maxRecDepth 40000 in
/-- Claim C9: the driver's experiment key is distinct for every swept
`(experiment, graph_type, mi, n_compromised)` combination — all 128 keys of the
sweep are pairwise different — so each dict assignment appends a fresh entry
and the accumulated dictionary that is serialized after each configuration
holds one entry per completed configuration, never overwriting an earlier one. -/
theorem experiment_names_distinct_no_overwrite :
    allExperimentNames.Nodup ∧
    allExperimentNames.length = 128 ∧
    (finalResultsDict (fun name => name)).length = 128 ∧
    experiment_results_keys.Nodup := by decide

/-- Claim C10 (the recording step is not well defined): the driver's
ground-truth marking `localization_results[features, test_idx, 0] = 1` uses a
row of the float64 `random_feature_idxs` array as the index array, which NumPy
rejects with `IndexError`; had the row been of integer dtype, the assignment
would have marked exactly the listed features. -/
theorem ground_truth_float_indexing_raises :
    markGroundTruth [3, 7] = none ∧
    fancyIndexSet (List.replicate n_dim 0) ⟨NpDtype.int64, [3, 7]⟩ 1 =
      some (((List.replicate n_dim (0 : ℚ)).set 3 1).set 7 1) :=
  ⟨rfl, rfl⟩
